import Mathlib

/-!
Shallow embedding of the go-nebulas transaction execution engine.

Source files embedded:
* `core/transaction.go` — the `Transaction` record, gas accounting
  (`GasCountOfTxBase`, `PayloadGasLimit`, `MinBalanceRequired`), the
  execution state machine `VerifyExecution`, `transfer`,
  `recordResultEvent`, `VerifyIntegrity` / `verifySign`, `NewTransaction`.
* the deploy payload file — `DeployPayload` (`BaseGasCount`, `Execute`).

Modelling conventions:
* The 128-bit unsigned numeric type (`util.Uint128`, an external
  dependency of the repository) is modelled as `Nat` together with
  explicit bound checks against `2 ^ 128`; every arithmetic operation
  returns `Except Err Nat` and fails on overflow or underflow, exactly as
  the Go type does.
* The world-state snapshot (`Block` and its `accState`, external to the
  embedded files) is modelled from the spec as a total balance map plus a
  contract-account list, an event log and a coinbase address.
  `GetOrCreateUserAccount` is a lookup in the total map (an absent
  account and an account of balance zero are indistinguishable).
* Raw payload bytes and their JSON decoding are external; a transaction
  carries the byte length of its payload and the semantic outcome of
  decoding it (`DecodeSpec`): either a decode failure with its error, or
  a decoded payload exposing `BaseGasCount` and an execution function,
  which is how `VerifyExecution` consumes the payload.
* The script engine (`nvm`) and the cryptographic primitives are
  external collaborators; they are modelled as explicit oracle
  structures (`NVM`, `CryptoModel`) threaded through the functions that
  consume them.
-/

namespace Nebulas

/-- Error values of the embedded code.  Core errors keep their Go names;
`uint128Overflow` / `uint128Underflow` stand for the arithmetic errors of
the external `util.Uint128` type, and `balanceInsufficient` for the
state-level `SubBalance` failure (distinct from the core admission error
`insufficientBalance`). -/
inductive Err where
  | nilArgument
  | invalidArgument
  | outOfGasLimit
  | insufficientBalance
  | invalidChainID
  | invalidTransactionHash
  | invalidTransactionSigner
  | contractTransactionAddressNotEqual
  | invalidTxPayloadType
  | txDataPayLoadOutOfMaxLength
  | uint128Overflow
  | uint128Underflow
  | balanceInsufficient
  | jsonDecodeFailed
  | execFailed
  deriving DecidableEq, Repr

/-- The exclusive upper bound of the 128-bit unsigned integer type. -/
def U128LIMIT : Nat := 2 ^ 128

/-- `util.Uint128` addition: fails on overflow instead of wrapping. -/
def u128Add (a b : Nat) : Except Err Nat :=
  if a + b < U128LIMIT then Except.ok (a + b) else Except.error Err.uint128Overflow

/-- `util.Uint128` subtraction: fails when the result would be negative. -/
def u128Sub (a b : Nat) : Except Err Nat :=
  if b ≤ a then Except.ok (a - b) else Except.error Err.uint128Underflow

/-- `util.Uint128` multiplication: fails on overflow instead of wrapping. -/
def u128Mul (a b : Nat) : Except Err Nat :=
  if a * b < U128LIMIT then Except.ok (a * b) else Except.error Err.uint128Overflow

/-- TransactionGasPrice default gasPrice : 10**6. -/
def TransactionGasPrice : Nat := 1000000

/-- MinGasCountPerTransaction default gas for normal transaction. -/
def MinGasCountPerTransaction : Nat := 20000

/-- GasCountPerByte per byte of data attached to a transaction gas cost. -/
def GasCountPerByte : Nat := 1

/-- MaxDataPayLoadLength max data length in transaction. -/
def MaxDataPayLoadLength : Nat := 1024 * 1024

/-- Account addresses, modelled as natural numbers. -/
abbrev Addr := Nat

/-- The plain data fields of a `Transaction` (everything except the
payload decoding outcome).  `dataLen` is the byte length of
`data.Payload`; `hash` and `sign` stand for the stored digest and
signature bytes; `alg` is the signature algorithm id. -/
structure TxCore where
  hash : Nat
  fromAddr : Addr
  toAddr : Addr
  value : Nat
  nonce : Nat
  timestamp : Int
  dataLen : Nat
  chainID : Nat
  gasPrice : Nat
  gasLimit : Nat
  alg : Nat
  sign : Nat
  deriving DecidableEq, Repr

/-- One transaction-execution result event (`TransactionEvent` in the
source); `gasUsed` is the value marshalled into the event's `gas_used`
field and `errMsg` the error put in its `error` field (`none` on
success, in which case the status is `TxExecutionSuccess`). -/
structure TransactionEvent where
  hash : Nat
  success : Bool
  gasUsed : Nat
  errMsg : Option Err
  deriving DecidableEq, Repr

/-- The world-state snapshot (`Block` in the collaborator contract):
a total balance map, the created contract accounts (address paired with
the code-identity hash), the event log, and the coinbase address. -/
structure WorldState where
  balances : Addr → Nat
  contracts : List (Addr × Nat)
  events : List TransactionEvent
  coinbase : Addr

/-- Overwrite one balance in the snapshot. -/
def setBal (s : WorldState) (a : Addr) (v : Nat) : WorldState :=
  { s with balances := fun x => if x = a then v else s.balances x }

/-- `accState.CreateContractAccount`: create a fresh contract account
bound to a code-identity hash. -/
def createContractAccount (s : WorldState) (a : Addr) (codeHash : Nat) : WorldState :=
  { s with contracts := s.contracts ++ [(a, codeHash)] }

/-- `Block.Merge(child)`: fold a child snapshot's account state, contract
accounts and events back into the parent; the parent keeps its own
header, hence its own coinbase. -/
def mergeState (parent child : WorldState) : WorldState :=
  { balances := child.balances
    contracts := child.contracts
    events := child.events
    coinbase := parent.coinbase }

/-- `Transaction.transfer`: debit `f`, then credit `t`.  `SubBalance`
fails when the balance is too small (state unchanged); `AddBalance`
fails on 128-bit overflow, in which case the debit has already been
applied — the pair returned is (error-or-none, resulting state). -/
def transfer (s : WorldState) (f t : Addr) (v : Nat) : Option Err × WorldState :=
  if v ≤ s.balances f then
    let s1 := setBal s f (s.balances f - v)
    if s1.balances t + v < U128LIMIT then
      (none, setBal s1 t (s1.balances t + v))
    else
      (some Err.uint128Overflow, s1)
  else
    (some Err.balanceInsufficient, s)

/-- `Transaction.GasCountOfTxBase`: base gas plus (payload byte length ×
per-byte cost), with checked arithmetic. -/
def gasCountOfTxBase (tx : TxCore) : Except Err Nat :=
  if 0 < tx.dataLen then
    match u128Mul tx.dataLen GasCountPerByte with
    | Except.error e => Except.error e
    | Except.ok dataGas => u128Add MinGasCountPerTransaction dataGas
  else
    Except.ok MinGasCountPerTransaction

/-- `Transaction.MinBalanceRequired` = gas_price × gas_limit + value,
with checked arithmetic. -/
def minBalanceRequired (tx : TxCore) : Except Err Nat :=
  match u128Mul tx.gasPrice tx.gasLimit with
  | Except.error e => Except.error e
  | Except.ok total => u128Add total tx.value

/-- `Transaction.PayloadGasLimit` = gas_limit − GasCountOfTxBase −
payload.BaseGasCount(); each failing subtraction is mapped to
`ErrOutOfGasLimit`. -/
def payloadGasLimit (tx : TxCore) (payloadBase : Nat) : Except Err Nat :=
  match gasCountOfTxBase tx with
  | Except.error e => Except.error e
  | Except.ok base =>
    match u128Sub tx.gasLimit base with
    | Except.error _ => Except.error Err.outOfGasLimit
    | Except.ok pgl =>
      match u128Sub pgl payloadBase with
      | Except.error _ => Except.error Err.outOfGasLimit
      | Except.ok pgl2 => Except.ok pgl2

/-- A decoded payload as `VerifyExecution` consumes it: its
`BaseGasCount` and its `Execute` function, which takes the snapshot it
runs against and the transaction's plain fields and produces
(gas consumed by execution, result string, error-or-none, resulting
snapshot). -/
structure TxPayload where
  baseGasCount : Nat
  run : WorldState → TxCore → Nat × String × Option Err × WorldState

/-- The semantic outcome of `LoadPayload` on a transaction's raw data:
either decoding fails with an error (unknown payload type tag or a JSON
decode failure), or it yields a payload. -/
inductive DecodeSpec where
  | undecodable (e : Err)
  | decoded (p : TxPayload)

/-- A `Transaction`: its plain fields plus the decoding outcome of its
payload bytes. -/
structure Transaction extends TxCore where
  decode : DecodeSpec

/-- `Transaction.LoadPayload`. -/
def loadPayload (tx : Transaction) : Except Err TxPayload :=
  match tx.decode with
  | DecodeSpec.undecodable e => Except.error e
  | DecodeSpec.decoded p => Except.ok p

/-- `NewTransaction`: a nil or non-positive gasPrice (resp. gasLimit) is
replaced by the default gas price (resp. the minimum gas count per
transaction); nil `from`/`to`/`value` is `ErrInvalidArgument`; an
oversized payload is `ErrTxDataPayLoadOutOfMaxLength`.  The `Option`
arguments stand for Go's nilable pointers; a `Uint128` is non-positive
exactly when it is zero. -/
def NewTransaction (chainID : Nat) (f t : Option Addr) (value : Option Nat)
    (nonce : Nat) (payloadLen : Nat) (decode : DecodeSpec) (now : Int)
    (gasPrice gasLimit : Option Nat) : Except Err Transaction :=
  let gp : Nat :=
    match gasPrice with
    | none => TransactionGasPrice
    | some p => if p = 0 then TransactionGasPrice else p
  let gl : Nat :=
    match gasLimit with
    | none => MinGasCountPerTransaction
    | some l => if l = 0 then MinGasCountPerTransaction else l
  match f, t, value with
  | some fa, some ta, some v =>
    if MaxDataPayLoadLength < payloadLen then
      Except.error Err.txDataPayLoadOutOfMaxLength
    else
      Except.ok
        { hash := 0
          fromAddr := fa
          toAddr := ta
          value := v
          nonce := nonce
          timestamp := now
          dataLen := payloadLen
          chainID := chainID
          gasPrice := gp
          gasLimit := gl
          alg := 0
          sign := 0
          decode := decode }
  | _, _, _ => Except.error Err.invalidArgument

/-- `Transaction.recordResultEvent`: append one execution-result event,
carrying the `gasUsed` argument it was given and the error (failure
status) or success status. -/
def recordResultEvent (tx : Transaction) (gasUsed : Nat) (e : Option Err)
    (s : WorldState) : WorldState :=
  { s with events := s.events ++
      [{ hash := tx.hash
         success := e.isNone
         gasUsed := gasUsed
         errMsg := e }] }

/-- Step 7 of `VerifyExecution`: if the accumulated total exceeds the
gas limit, clamp the gas used to the limit and force the execution
error to `ErrOutOfGasLimit`. -/
def clampGas (gasLimit total : Nat) (e : Option Err) : Nat × Option Err :=
  if gasLimit < total then (gasLimit, some Err.outOfGasLimit) else (total, e)

/-- `Transaction.VerifyExecution`, step for step from the source:
1. reject with `ErrOutOfGasLimit` when `gasLimit < GasCountOfTxBase`;
2. reject with `ErrInsufficientBalance` when the sender balance is
   below `MinBalanceRequired`;
3. on payload decode failure, charge `gasPrice × GasCountOfTxBase` to
   the coinbase, record a failure event and return that gas count;
4. on `gasLimit < GasCountOfTxBase + payload.BaseGasCount`, charge
   `gasPrice × gasLimit`, record an `ErrOutOfGasLimit` failure event and
   return the gas limit;
5. clone a child snapshot and transfer the value on it;
6. run the payload on the child;
7. clamp the total gas to the limit;
8. merge the child into the outer snapshot exactly when the execution
   error is `none`; charge `gasPrice × gasUsed` on the outer snapshot
   and record the result event — the event receives the monetary fee
   `gas`, exactly as the source's final `recordResultEvent(block, gas,
   exeErr)` call does.
The returned pair is (result-or-hard-error, resulting snapshot). -/
def verifyExecution (tx : Transaction) (s : WorldState) :
    Except Err Nat × WorldState :=
  match gasCountOfTxBase tx.toTxCore with
  | Except.error e => (Except.error e, s)
  | Except.ok gasUsed =>
    if tx.gasLimit < gasUsed then
      (Except.error Err.outOfGasLimit, s)
    else
      match minBalanceRequired tx.toTxCore with
      | Except.error e => (Except.error e, s)
      | Except.ok minBal =>
        if s.balances tx.fromAddr < minBal then
          (Except.error Err.insufficientBalance, s)
        else
          match loadPayload tx with
          | Except.error payloadErr =>
            match u128Mul tx.gasPrice gasUsed with
            | Except.error e => (Except.error e, s)
            | Except.ok gas =>
              match transfer s tx.fromAddr s.coinbase gas with
              | (some e, s1) => (Except.error e, s1)
              | (none, s1) =>
                (Except.ok gasUsed,
                 recordResultEvent tx gasUsed (some payloadErr) s1)
          | Except.ok payload =>
            match u128Add gasUsed payload.baseGasCount with
            | Except.error e => (Except.error e, s)
            | Except.ok gasUsed2 =>
              if tx.gasLimit < gasUsed2 then
                match u128Mul tx.gasPrice tx.gasLimit with
                | Except.error e => (Except.error e, s)
                | Except.ok gas =>
                  match transfer s tx.fromAddr s.coinbase gas with
                  | (some e, s1) => (Except.error e, s1)
                  | (none, s1) =>
                    (Except.ok tx.gasLimit,
                     recordResultEvent tx tx.gasLimit (some Err.outOfGasLimit) s1)
              else
                match transfer s tx.fromAddr tx.toAddr tx.value with
                | (some e, _) => (Except.error e, s)
                | (none, child1) =>
                  match payload.run child1 tx.toTxCore with
                  | (gasExecution, _, exeErr0, child2) =>
                    match u128Add gasUsed2 gasExecution with
                    | Except.error e => (Except.error e, s)
                    | Except.ok total =>
                      match clampGas tx.gasLimit total exeErr0 with
                      | (gasUsed3, exeErr) =>
                        let sMerged :=
                          if exeErr.isNone then mergeState s child2 else s
                        match u128Mul tx.gasPrice gasUsed3 with
                        | Except.error e => (Except.error e, sMerged)
                        | Except.ok gas =>
                          match transfer sMerged tx.fromAddr s.coinbase gas with
                          | (some e, s1) => (Except.error e, s1)
                          | (none, s1) =>
                            (Except.ok gasUsed3,
                             recordResultEvent tx gas exeErr s1)

/-- `DeployPayload` carries contract deploy information. -/
structure DeployPayload where
  sourceType : String
  source : String
  args : String
  deriving DecidableEq, Repr

/-- `DeployPayload.BaseGasCount` returns `util.NewUint128()`, i.e. zero. -/
def DeployPayload.BaseGasCount (_p : DeployPayload) : Nat := 0

/-- The script-engine collaborator (`block.nvm`), modelled as an oracle:
whether engine creation fails, whether imposing the instruction limit
fails, the (result, error) of deploy-and-init, and the instruction count
read back afterwards. -/
structure NVM where
  createEngine : Option Err
  setExecutionLimits : Nat → Option Err
  deployAndInit : String → String → String → String × Option Err
  executionInstructions : Except Err Nat

/-- Modelled from the spec: the contract address is derived as a hash of
`from || nonce` (`GenerateContractAddress`); the external hash is
modelled as an injective pairing of the two fields. -/
def generateContractAddress (tx : TxCore) : Addr :=
  Nat.pair tx.fromAddr tx.nonce

/-- `DeployPayload.Execute`, step for step from the source: reject with
`ErrContractTransactionAddressNotEqual` when `from ≠ to`; compute
`PayloadGasLimit` (propagating its error); reject with
`ErrOutOfGasLimit` when it is not strictly positive; then derive the
contract address, create the contract account bound to the transaction
hash, create the engine, impose the limit, deploy-and-init, and read
back the consumed instruction count. -/
def DeployPayload.Execute (p : DeployPayload) (nvm : NVM) (s : WorldState)
    (tx : TxCore) : Nat × String × Option Err × WorldState :=
  if tx.fromAddr ≠ tx.toAddr then
    (0, "", some Err.contractTransactionAddressNotEqual, s)
  else
    match payloadGasLimit tx (DeployPayload.BaseGasCount p) with
    | Except.error e => (0, "", some e, s)
    | Except.ok pgl =>
      -- `SetEngineExecutionLimits(payloadGasLimit.Uint64())` truncates
      -- the 128-bit limit to 64 bits, hence the modulus below.
      if pgl = 0 then
        (0, "", some Err.outOfGasLimit, s)
      else
        let addr := generateContractAddress tx
        let s1 := createContractAccount s addr tx.hash
        match nvm.createEngine with
        | some e => (0, "", some e, s1)
        | none =>
          match nvm.setExecutionLimits (pgl % 2 ^ 64) with
          | some e => (0, "", some e, s1)
          | none =>
            match nvm.deployAndInit p.source p.sourceType p.args with
            | (result, exeErr) =>
              match nvm.executionInstructions with
              | Except.error e => (0, "", some e, s1)
              | Except.ok gasCout => (gasCout, result, exeErr, s1)

/-- The cryptographic collaborators of `VerifyIntegrity`, modelled as an
oracle: the domain hash recomputation (`HashTransaction`; it can fail on
serialization errors), and the recovery chain of `verifySign`
(`crypto.NewSignature(alg)`, `RecoverPublic(hash, sign)`, `Encoded`,
`NewAddressFromPublicKey`), collapsed into one fallible map from
(algorithm, stored hash, signature) to the recovered address. -/
structure CryptoModel where
  hashTransaction : TxCore → Except Err Nat
  recoverAddress : Nat → Nat → Nat → Except Err Addr

/-- `Transaction.verifySign`: recover the signer address and fail with
`ErrInvalidTransactionSigner` when it differs from `from`. -/
def verifySign (C : CryptoModel) (tx : TxCore) : Option Err :=
  match C.recoverAddress tx.alg tx.hash tx.sign with
  | Except.error e => some e
  | Except.ok addr =>
    if tx.fromAddr = addr then none else some Err.invalidTransactionSigner

/-- `Transaction.VerifyIntegrity`: `ErrInvalidChainID` on chain-id
mismatch, then `ErrInvalidTransactionHash` when the recomputed domain
hash differs from the stored one, then signature verification. -/
def verifyIntegrity (C : CryptoModel) (tx : TxCore) (chainID : Nat) : Option Err :=
  if tx.chainID ≠ chainID then
    some Err.invalidChainID
  else
    match C.hashTransaction tx with
    | Except.error e => some e
    | Except.ok wantedHash =>
      if wantedHash = tx.hash then verifySign C tx
      else some Err.invalidTransactionHash

deriving instance DecidableEq for Except

/-! Helper lemmas about the checked 128-bit arithmetic. -/

theorem u128Add_ok {a b c : Nat} (h : u128Add a b = Except.ok c) :
    c = a + b ∧ c < U128LIMIT := by
  unfold u128Add at h
  split at h
  · injection h with h
    subst h
    exact ⟨rfl, by assumption⟩
  · simp at h

theorem u128Mul_ok {a b c : Nat} (h : u128Mul a b = Except.ok c) :
    c = a * b ∧ c < U128LIMIT := by
  unfold u128Mul at h
  split at h
  · injection h with h
    subst h
    exact ⟨rfl, by assumption⟩
  · simp at h

theorem u128Sub_ok {a b c : Nat} (h : u128Sub a b = Except.ok c) :
    c = a - b ∧ b ≤ a := by
  unfold u128Sub at h
  split at h
  · injection h with h
    subst h
    exact ⟨rfl, by assumption⟩
  · simp at h

theorem u128Add_ok_of_lt {a b : Nat} (h : a + b < U128LIMIT) :
    u128Add a b = Except.ok (a + b) := by
  unfold u128Add
  exact if_pos h

theorem u128Mul_ok_of_lt {a b : Nat} (h : a * b < U128LIMIT) :
    u128Mul a b = Except.ok (a * b) := by
  unfold u128Mul
  exact if_pos h

theorem gasCountOfTxBase_lt_limit {tx : TxCore} {g : Nat}
    (h : gasCountOfTxBase tx = Except.ok g) : g < U128LIMIT := by
  unfold gasCountOfTxBase at h
  split at h
  · cases hm : u128Mul tx.dataLen GasCountPerByte with
    | error e => rw [hm] at h; simp at h
    | ok dataGas => rw [hm] at h; exact (u128Add_ok h).2
  · injection h with h
    subst h
    decide

theorem minBalanceRequired_ok {tx : TxCore} {m : Nat}
    (h : minBalanceRequired tx = Except.ok m) :
    m = tx.gasPrice * tx.gasLimit + tx.value ∧
      tx.gasPrice * tx.gasLimit < U128LIMIT ∧ m < U128LIMIT := by
  unfold minBalanceRequired at h
  cases hm : u128Mul tx.gasPrice tx.gasLimit with
  | error e => rw [hm] at h; simp at h
  | ok total =>
    rw [hm] at h
    obtain ⟨rfl, htl⟩ := u128Mul_ok hm
    obtain ⟨rfl, hml⟩ := u128Add_ok h
    exact ⟨rfl, htl, hml⟩

/-! Claim theorems. -/

/-- C7: for every transaction whose `gas_price × gas_limit + value`
fits in an unsigned 128-bit integer, `MinBalanceRequired` returns
exactly `gas_price × gas_limit + value`; if the multiplication or the
subsequent addition overflows 128 bits, it returns an arithmetic
overflow error rather than a wrapped value. -/
theorem minBalanceRequired_exact (tx : TxCore) :
    (tx.gasPrice * tx.gasLimit + tx.value < U128LIMIT →
      minBalanceRequired tx =
        Except.ok (tx.gasPrice * tx.gasLimit + tx.value)) ∧
    (U128LIMIT ≤ tx.gasPrice * tx.gasLimit ∨
        U128LIMIT ≤ tx.gasPrice * tx.gasLimit + tx.value →
      minBalanceRequired tx = Except.error Err.uint128Overflow) := by
  constructor
  · intro h
    have hm : tx.gasPrice * tx.gasLimit < U128LIMIT :=
      lt_of_le_of_lt (Nat.le_add_right _ _) h
    simp [minBalanceRequired, u128Mul_ok_of_lt hm, u128Add_ok_of_lt h]
  · intro h
    rcases h with h | h
    · simp [minBalanceRequired, u128Mul, not_lt.mpr h]
    · by_cases hm : tx.gasPrice * tx.gasLimit < U128LIMIT
      · simp [minBalanceRequired, u128Mul_ok_of_lt hm, u128Add, not_lt.mpr h]
      · simp [minBalanceRequired, u128Mul, hm]

def txC7a : TxCore :=
  { hash := 0, fromAddr := 1, toAddr := 2, value := 7, nonce := 0,
    timestamp := 0, dataLen := 0, chainID := 1, gasPrice := 3,
    gasLimit := 5, alg := 1, sign := 0 }

def txC7b : TxCore :=
  { txC7a with gasPrice := 2 ^ 127, gasLimit := 4 }

theorem minBalanceRequired_exact_witness :
    minBalanceRequired txC7a = Except.ok 22 ∧
    minBalanceRequired txC7b = Except.error Err.uint128Overflow :=
  ⟨(minBalanceRequired_exact txC7a).1 (by decide),
   (minBalanceRequired_exact txC7b).2 (Or.inl (by decide))⟩

/-- C9: `DeployPayload.BaseGasCount` returns zero regardless of the
payload's contents, so the running gas of `VerifyExecution`'s
payload-gas check — `GasCountOfTxBase` plus the payload base cost —
equals `GasCountOfTxBase` exactly. -/
theorem deployPayload_baseGasCount_zero (p : DeployPayload) (tx : TxCore)
    (g : Nat) (hg : gasCountOfTxBase tx = Except.ok g) :
    DeployPayload.BaseGasCount p = 0 ∧
    u128Add g (DeployPayload.BaseGasCount p) = Except.ok g := by
  refine ⟨rfl, ?_⟩
  have hlt := gasCountOfTxBase_lt_limit hg
  unfold DeployPayload.BaseGasCount u128Add
  rw [Nat.add_zero, if_pos hlt]

def pC9 : DeployPayload := { sourceType := "js", source := "code", args := "" }

def txC9 : TxCore :=
  { hash := 0, fromAddr := 1, toAddr := 1, value := 0, nonce := 0,
    timestamp := 0, dataLen := 10, chainID := 1, gasPrice := 1,
    gasLimit := 30000, alg := 1, sign := 0 }

theorem deployPayload_baseGasCount_zero_witness :
    DeployPayload.BaseGasCount pC9 = 0 ∧
    u128Add 20010 (DeployPayload.BaseGasCount pC9) = Except.ok 20010 :=
  deployPayload_baseGasCount_zero pC9 txC9 20010 (by decide)

/-- C10: `NewTransaction` silently replaces a nil or non-positive
gasLimit by the default minimum gas count per transaction (20000), and a
nil or non-positive gasPrice by the default gas price (10^6); any
transaction it constructs has strictly positive gasPrice and
gasLimit. -/
theorem newTransaction_gas_defaults (chainID : Nat) (f t : Option Addr)
    (v : Option Nat) (nonce payloadLen : Nat) (decode : DecodeSpec)
    (now : Int) (gasPrice gasLimit : Option Nat) (tx : Transaction)
    (h : NewTransaction chainID f t v nonce payloadLen decode now
        gasPrice gasLimit = Except.ok tx) :
    ((gasLimit = none ∨ gasLimit = some 0) →
       tx.gasLimit = MinGasCountPerTransaction) ∧
    ((gasPrice = none ∨ gasPrice = some 0) →
       tx.gasPrice = TransactionGasPrice) ∧
    MinGasCountPerTransaction = 20000 ∧
    TransactionGasPrice = 1000000 ∧
    0 < tx.gasPrice ∧ 0 < tx.gasLimit := by
  rcases f with _ | fa <;> rcases t with _ | ta <;> rcases v with _ | v0 <;>
    simp only [NewTransaction] at h <;> try simp at h
  split at h
  · simp at h
  · injection h with h
    subst h
    refine ⟨?_, ?_, rfl, rfl, ?_, ?_⟩
    · rintro (rfl | rfl) <;> rfl
    · rintro (rfl | rfl) <;> rfl
    · rcases gasPrice with _ | p
      · show 0 < TransactionGasPrice
        decide
      · by_cases hp : p = 0
        · subst hp
          show 0 < TransactionGasPrice
          decide
        · show 0 < if p = 0 then TransactionGasPrice else p
          rw [if_neg hp]
          exact Nat.pos_of_ne_zero hp
    · rcases gasLimit with _ | l
      · show 0 < MinGasCountPerTransaction
        decide
      · by_cases hl : l = 0
        · subst hl
          show 0 < MinGasCountPerTransaction
          decide
        · show 0 < if l = 0 then MinGasCountPerTransaction else l
          rw [if_neg hl]
          exact Nat.pos_of_ne_zero hl

def decC10 : DecodeSpec := DecodeSpec.undecodable Err.jsonDecodeFailed

def txC10 : Transaction :=
  { hash := 0, fromAddr := 1, toAddr := 2, value := 5, nonce := 3,
    timestamp := 0, dataLen := 0, chainID := 1,
    gasPrice := TransactionGasPrice, gasLimit := MinGasCountPerTransaction,
    alg := 0, sign := 0, decode := decC10 }

theorem newTransaction_gas_defaults_witness :
    txC10.gasLimit = MinGasCountPerTransaction ∧
    txC10.gasPrice = TransactionGasPrice ∧
    0 < txC10.gasPrice ∧ 0 < txC10.gasLimit := by
  have h := newTransaction_gas_defaults 1 (some 1) (some 2) (some 5) 3 0
    decC10 0 none (some 0) txC10 rfl
  exact ⟨h.1 (Or.inr rfl), h.2.1 (Or.inl rfl), h.2.2.2.2.1, h.2.2.2.2.2⟩

theorem transfer_contracts (s : WorldState) (f t : Addr) (v : Nat) :
    ((transfer s f t v).2).contracts = s.contracts := by
  simp only [transfer]
  split
  · split <;> rfl
  · rfl

theorem recordResultEvent_contracts (tx : Transaction) (g : Nat)
    (e : Option Err) (s : WorldState) :
    (recordResultEvent tx g e s).contracts = s.contracts := rfl

/-- C1: when `VerifyExecution` rejects at the base-gas check
(`gas_limit < GasCountOfTxBase`, returning `ErrOutOfGasLimit`) or at the
balance check (sender balance below `MinBalanceRequired`, returning
`ErrInsufficientBalance`), the snapshot it returns is the input snapshot
itself: no account created or modified, no fee transferred, no event
recorded. -/
theorem verifyExecution_admission_frame (tx : Transaction) (s : WorldState)
    (g : Nat) (hg : gasCountOfTxBase tx.toTxCore = Except.ok g) :
    (tx.gasLimit < g →
      verifyExecution tx s = (Except.error Err.outOfGasLimit, s)) ∧
    (∀ m, g ≤ tx.gasLimit → minBalanceRequired tx.toTxCore = Except.ok m →
      s.balances tx.fromAddr < m →
      verifyExecution tx s = (Except.error Err.insufficientBalance, s)) := by
  constructor
  · intro hlt
    simp [verifyExecution, hg, hlt]
  · intro m h1 hm hb
    simp [verifyExecution, hg, not_lt.mpr h1, hm, hb]

def txC1 : Transaction :=
  { hash := 11, fromAddr := 1, toAddr := 2, value := 0, nonce := 0,
    timestamp := 0, dataLen := 0, chainID := 1, gasPrice := 1,
    gasLimit := 19999, alg := 1, sign := 0,
    decode := DecodeSpec.undecodable Err.invalidTxPayloadType }

def txC1b : Transaction :=
  { txC1 with gasLimit := 20000, gasPrice := 10 }

def wsC1 : WorldState :=
  { balances := fun a => if a = 1 then 1000 else 0
    contracts := []
    events := []
    coinbase := 9 }

theorem verifyExecution_admission_frame_witness :
    verifyExecution txC1 wsC1 = (Except.error Err.outOfGasLimit, wsC1) ∧
    verifyExecution txC1b wsC1 = (Except.error Err.insufficientBalance, wsC1) :=
  ⟨(verifyExecution_admission_frame txC1 wsC1 20000 (by decide)).1 (by decide),
   (verifyExecution_admission_frame txC1b wsC1 20000 (by decide)).2 200000
     (by decide) (by decide) (by decide)⟩

/-- C5: when the payload fails to decode after the base-gas and balance
checks pass, `VerifyExecution` transfers exactly
`gas_price × GasCountOfTxBase` from sender to coinbase on the outer
snapshot, records a failure event, and returns the base gas count with
no error — the decode error is not returned to the caller. -/
theorem verifyExecution_undecodable_payload (tx : Transaction)
    (s : WorldState) (g m : Nat) (e : Err) (s1 : WorldState)
    (hg : gasCountOfTxBase tx.toTxCore = Except.ok g)
    (h1 : g ≤ tx.gasLimit)
    (hm : minBalanceRequired tx.toTxCore = Except.ok m)
    (hb : m ≤ s.balances tx.fromAddr)
    (hdec : loadPayload tx = Except.error e)
    (hfee : transfer s tx.fromAddr s.coinbase (tx.gasPrice * g) = (none, s1)) :
    verifyExecution tx s =
      (Except.ok g, recordResultEvent tx g (some e) s1) := by
  obtain ⟨-, hml, -⟩ := minBalanceRequired_ok hm
  have hmul : tx.gasPrice * g < U128LIMIT :=
    lt_of_le_of_lt (Nat.mul_le_mul_left _ h1) hml
  simp [verifyExecution, hg, not_lt.mpr h1, hm, not_lt.mpr hb, hdec,
    u128Mul_ok_of_lt hmul, hfee]

def txC5 : Transaction :=
  { hash := 55, fromAddr := 1, toAddr := 2, value := 0, nonce := 0,
    timestamp := 0, dataLen := 0, chainID := 1, gasPrice := 1,
    gasLimit := 20000, alg := 1, sign := 0,
    decode := DecodeSpec.undecodable Err.jsonDecodeFailed }

def wsC5 : WorldState :=
  { balances := fun a => if a = 1 then 100000 else 0
    contracts := []
    events := []
    coinbase := 9 }

theorem verifyExecution_undecodable_payload_witness :
    verifyExecution txC5 wsC5 =
      (Except.ok 20000,
       recordResultEvent txC5 20000 (some Err.jsonDecodeFailed)
         (transfer wsC5 1 9 20000).2) :=
  verifyExecution_undecodable_payload txC5 wsC5 20000 20000
    Err.jsonDecodeFailed (transfer wsC5 1 9 20000).2 (by decide) (by decide)
    (by decide) (by decide) rfl rfl

/-- C3: when the payload decodes but `gas_limit` is below
`GasCountOfTxBase + payload.BaseGasCount`, `VerifyExecution` transfers
`gas_price × gas_limit` — the entire limit — from sender to coinbase on
the outer snapshot, records an `ErrOutOfGasLimit` failure event, returns
the gas limit with no error, and the contract-account list of the outer
snapshot is unchanged (no child snapshot is merged, no contract account
created). -/
theorem verifyExecution_payload_gas_reject (tx : Transaction)
    (s : WorldState) (p : TxPayload) (g m : Nat) (s1 : WorldState)
    (hdec : loadPayload tx = Except.ok p)
    (hg : gasCountOfTxBase tx.toTxCore = Except.ok g)
    (h1 : g ≤ tx.gasLimit)
    (hm : minBalanceRequired tx.toTxCore = Except.ok m)
    (hb : m ≤ s.balances tx.fromAddr)
    (haddok : g + p.baseGasCount < U128LIMIT)
    (hover : tx.gasLimit < g + p.baseGasCount)
    (hfee : transfer s tx.fromAddr s.coinbase (tx.gasPrice * tx.gasLimit) =
      (none, s1)) :
    verifyExecution tx s =
      (Except.ok tx.gasLimit,
       recordResultEvent tx tx.gasLimit (some Err.outOfGasLimit) s1) ∧
    ((verifyExecution tx s).2).contracts = s.contracts := by
  obtain ⟨-, hmul, -⟩ := minBalanceRequired_ok hm
  have hmain : verifyExecution tx s =
      (Except.ok tx.gasLimit,
       recordResultEvent tx tx.gasLimit (some Err.outOfGasLimit) s1) := by
    simp [verifyExecution, hg, not_lt.mpr h1, hm, not_lt.mpr hb, hdec,
      u128Add_ok_of_lt haddok, hover, u128Mul_ok_of_lt hmul, hfee]
  refine ⟨hmain, ?_⟩
  rw [hmain]
  show (recordResultEvent tx tx.gasLimit (some Err.outOfGasLimit) s1).contracts
    = s.contracts
  rw [recordResultEvent_contracts]
  have := transfer_contracts s tx.fromAddr s.coinbase
    (tx.gasPrice * tx.gasLimit)
  rw [hfee] at this
  exact this

def pC3 : TxPayload :=
  { baseGasCount := 50000
    run := fun s _ => (0, "", none, s) }

def txC3 : Transaction :=
  { hash := 33, fromAddr := 1, toAddr := 2, value := 0, nonce := 0,
    timestamp := 0, dataLen := 0, chainID := 1, gasPrice := 2,
    gasLimit := 30000, alg := 1, sign := 0,
    decode := DecodeSpec.decoded pC3 }

def wsC3 : WorldState :=
  { balances := fun a => if a = 1 then 100000 else 0
    contracts := []
    events := []
    coinbase := 9 }

theorem verifyExecution_payload_gas_reject_witness :
    verifyExecution txC3 wsC3 =
      (Except.ok 30000,
       recordResultEvent txC3 30000 (some Err.outOfGasLimit)
         (transfer wsC3 1 9 60000).2) ∧
    ((verifyExecution txC3 wsC3).2).contracts = wsC3.contracts :=
  verifyExecution_payload_gas_reject txC3 wsC3 pC3 20000 60000
    (transfer wsC3 1 9 60000).2 rfl (by decide) (by decide) (by decide)
    (by decide) (by decide) (by decide) rfl

theorem clampGas_le (L total : Nat) (e0 : Option Err) :
    (clampGas L total e0).1 ≤ L := by
  unfold clampGas
  split
  · exact le_refl L
  · exact not_lt.mp (by assumption)

/-- C4: once `VerifyExecution` reaches payload execution, the child
snapshot is merged into the outer snapshot exactly when the execution
error after the total-gas clamp is `none`.  On any execution error
(including the forced `ErrOutOfGasLimit` of the clamp) the child is
discarded: the fee is charged on the original outer snapshot, so the
only balance change besides the event is the fee transfer; on success
the fee is charged on the merged child. -/
theorem verifyExecution_merge_iff_success (tx : Transaction)
    (s : WorldState) (p : TxPayload) (g m : Nat)
    (child1 child2 : WorldState) (gasExecution : Nat) (res : String)
    (exeErr0 : Option Err)
    (hdec : loadPayload tx = Except.ok p)
    (hg : gasCountOfTxBase tx.toTxCore = Except.ok g)
    (hm : minBalanceRequired tx.toTxCore = Except.ok m)
    (hb : m ≤ s.balances tx.fromAddr)
    (haddok : g + p.baseGasCount < U128LIMIT)
    (hfits : g + p.baseGasCount ≤ tx.gasLimit)
    (hval : transfer s tx.fromAddr tx.toAddr tx.value = (none, child1))
    (hrun : p.run child1 tx.toTxCore = (gasExecution, res, exeErr0, child2))
    (htot : g + p.baseGasCount + gasExecution < U128LIMIT) :
    (∀ gasUsed ev, clampGas tx.gasLimit (g + p.baseGasCount + gasExecution)
        exeErr0 = (gasUsed, some ev) →
      ∀ s1, transfer s tx.fromAddr s.coinbase (tx.gasPrice * gasUsed) =
          (none, s1) →
        verifyExecution tx s =
          (Except.ok gasUsed,
           recordResultEvent tx (tx.gasPrice * gasUsed) (some ev) s1)) ∧
    (∀ gasUsed, clampGas tx.gasLimit (g + p.baseGasCount + gasExecution)
        exeErr0 = (gasUsed, none) →
      ∀ s1, transfer (mergeState s child2) tx.fromAddr s.coinbase
          (tx.gasPrice * gasUsed) = (none, s1) →
        verifyExecution tx s =
          (Except.ok gasUsed,
           recordResultEvent tx (tx.gasPrice * gasUsed) none s1)) := by
  obtain ⟨-, hmull, -⟩ := minBalanceRequired_ok hm
  have h1 : g ≤ tx.gasLimit := le_trans (Nat.le_add_right _ _) hfits
  constructor
  · intro gasUsed ev hclamp s1 hfee
    have hgle : gasUsed ≤ tx.gasLimit := by
      have h := clampGas_le tx.gasLimit (g + p.baseGasCount + gasExecution)
        exeErr0
      rw [hclamp] at h
      exact h
    have hmul2 : tx.gasPrice * gasUsed < U128LIMIT :=
      lt_of_le_of_lt (Nat.mul_le_mul_left _ hgle) hmull
    simp [verifyExecution, hg, not_lt.mpr h1, hm, not_lt.mpr hb, hdec,
      u128Add_ok_of_lt haddok, not_lt.mpr hfits, hval, hrun,
      u128Add_ok_of_lt htot, hclamp, u128Mul_ok_of_lt hmul2, hfee]
  · intro gasUsed hclamp s1 hfee
    have hgle : gasUsed ≤ tx.gasLimit := by
      have h := clampGas_le tx.gasLimit (g + p.baseGasCount + gasExecution)
        exeErr0
      rw [hclamp] at h
      exact h
    have hmul2 : tx.gasPrice * gasUsed < U128LIMIT :=
      lt_of_le_of_lt (Nat.mul_le_mul_left _ hgle) hmull
    simp [verifyExecution, hg, not_lt.mpr h1, hm, not_lt.mpr hb, hdec,
      u128Add_ok_of_lt haddok, not_lt.mpr hfits, hval, hrun,
      u128Add_ok_of_lt htot, hclamp, u128Mul_ok_of_lt hmul2, hfee]

def pC4f : TxPayload :=
  { baseGasCount := 0
    run := fun s _ => (100, "", some Err.execFailed, setBal s 5 42) }

def pC4s : TxPayload :=
  { baseGasCount := 0
    run := fun s _ => (100, "", none, setBal s 5 42) }

def txC4f : Transaction :=
  { hash := 44, fromAddr := 1, toAddr := 2, value := 5, nonce := 0,
    timestamp := 0, dataLen := 0, chainID := 1, gasPrice := 1,
    gasLimit := 30000, alg := 1, sign := 0,
    decode := DecodeSpec.decoded pC4f }

def txC4s : Transaction :=
  { txC4f with decode := DecodeSpec.decoded pC4s }

def wsC4 : WorldState :=
  { balances := fun a => if a = 1 then 100000 else 0
    contracts := []
    events := []
    coinbase := 9 }

theorem verifyExecution_merge_iff_success_witness :
    verifyExecution txC4f wsC4 =
      (Except.ok 20100,
       recordResultEvent txC4f 20100 (some Err.execFailed)
         (transfer wsC4 1 9 20100).2) ∧
    verifyExecution txC4s wsC4 =
      (Except.ok 20100,
       recordResultEvent txC4s 20100 none
         (transfer (mergeState wsC4 (setBal (transfer wsC4 1 2 5).2 5 42))
           1 9 20100).2) :=
  ⟨(verifyExecution_merge_iff_success txC4f wsC4 pC4f 20000 30005
      (transfer wsC4 1 2 5).2 (setBal (transfer wsC4 1 2 5).2 5 42) 100
      ("") (some Err.execFailed) rfl (by decide) (by decide) (by decide)
      (by decide) (by decide) rfl rfl (by decide)).1 20100 Err.execFailed
      (by decide) (transfer wsC4 1 9 20100).2 rfl,
   (verifyExecution_merge_iff_success txC4s wsC4 pC4s 20000 30005
      (transfer wsC4 1 2 5).2 (setBal (transfer wsC4 1 2 5).2 5 42) 100
      ("") none rfl (by decide) (by decide) (by decide)
      (by decide) (by decide) rfl rfl (by decide)).2 20100
      (by decide)
      (transfer (mergeState wsC4 (setBal (transfer wsC4 1 2 5).2 5 42))
        1 9 20100).2 rfl⟩

def pC2 : TxPayload :=
  { baseGasCount := 0
    run := fun s _ => (100, "", none, s) }

def txC2 : Transaction :=
  { hash := 22, fromAddr := 1, toAddr := 2, value := 5, nonce := 0,
    timestamp := 0, dataLen := 0, chainID := 1, gasPrice := 2,
    gasLimit := 30000, alg := 1, sign := 0,
    decode := DecodeSpec.decoded pC2 }

def wsC2 : WorldState :=
  { balances := fun a => if a = 1 then 100000 else 0
    contracts := []
    events := []
    coinbase := 9 }

/-- C2: at the final fee-settlement step the source passes the monetary
fee `gas = gasPrice × gasUsed` — not the gas count — into
`recordResultEvent`, so the recorded event's gas_used field differs
from the gas count `VerifyExecution` returns whenever the gas price is
not 1: here the call returns 20100 gas used but the single recorded
event carries 2 × 20100 = 40200 in its gas_used field. -/
theorem verifyExecution_event_gas_is_fee :
    (verifyExecution txC2 wsC2).1 = Except.ok 20100 ∧
    ((verifyExecution txC2 wsC2).2).events.map (fun ev => ev.gasUsed) =
      [40200] := by
  constructor
  · rfl
  · rfl

/-- C6: `VerifyIntegrity` checks the chain id, then the recomputed
domain hash against the stored hash, then the signature: it returns
`ErrInvalidChainID` on a chain-id mismatch; with the chain id matching,
`ErrInvalidTransactionHash` when the recomputed hash differs from the
stored one; and with both passing and address recovery succeeding, it
returns `ErrInvalidTransactionSigner` exactly when the recovered
address differs from `from`. -/
theorem verifyIntegrity_checks (C : CryptoModel) (tx : TxCore)
    (chainID : Nat) :
    (tx.chainID ≠ chainID →
      verifyIntegrity C tx chainID = some Err.invalidChainID) ∧
    (∀ w, tx.chainID = chainID → C.hashTransaction tx = Except.ok w →
      w ≠ tx.hash →
      verifyIntegrity C tx chainID = some Err.invalidTransactionHash) ∧
    (∀ w a, tx.chainID = chainID → C.hashTransaction tx = Except.ok w →
      w = tx.hash →
      C.recoverAddress tx.alg tx.hash tx.sign = Except.ok a →
      (verifyIntegrity C tx chainID = some Err.invalidTransactionSigner ↔
        a ≠ tx.fromAddr)) := by
  refine ⟨?_, ?_, ?_⟩
  · intro h
    simp [verifyIntegrity, h]
  · intro w hc hw hne
    simp [verifyIntegrity, hc, hw, hne]
  · intro w a hc hw hwh hr
    subst hwh
    constructor
    · intro h hcontra
      simp [verifyIntegrity, hc, hw, verifySign, hr, hcontra.symm] at h
    · intro hne
      have hfne : tx.fromAddr ≠ a := fun h => hne h.symm
      simp [verifyIntegrity, hc, hw, verifySign, hr, hfne]

def cmC6 : CryptoModel :=
  { hashTransaction := fun tx => Except.ok (tx.chainID + 100)
    recoverAddress := fun _ h _ => Except.ok h }

def txC6a : TxCore :=
  { hash := 101, fromAddr := 101, toAddr := 2, value := 0, nonce := 0,
    timestamp := 0, dataLen := 0, chainID := 1, gasPrice := 1,
    gasLimit := 20000, alg := 1, sign := 0 }

def txC6b : TxCore := { txC6a with hash := 999 }

def txC6c : TxCore := { txC6a with fromAddr := 7 }

theorem verifyIntegrity_checks_witness :
    verifyIntegrity cmC6 txC6a 2 = some Err.invalidChainID ∧
    verifyIntegrity cmC6 txC6b 1 = some Err.invalidTransactionHash ∧
    verifyIntegrity cmC6 txC6c 1 = some Err.invalidTransactionSigner :=
  ⟨(verifyIntegrity_checks cmC6 txC6a 2).1 (by decide),
   (verifyIntegrity_checks cmC6 txC6b 1).2.1 101 (by decide) rfl (by decide),
   ((verifyIntegrity_checks cmC6 txC6c 1).2.2 101 101 (by decide) rfl
     (by decide) rfl).mpr (by decide)⟩

/-- C8: `DeployPayload.Execute` checks its preconditions in order
before any account creation or engine work: with `from ≠ to` it returns
`ErrContractTransactionAddressNotEqual` and leaves the snapshot
untouched; with `from = to` but a payload gas limit that fails to
compute (`ErrOutOfGasLimit`) or computes to zero, it returns
`ErrOutOfGasLimit` and leaves the snapshot untouched; only when both
preconditions hold does it derive the contract address and create the
contract account (bound to the transaction hash) before the engine
runs. -/
theorem deployExecute_preconditions (p : DeployPayload) (nvm : NVM)
    (s : WorldState) (tx : TxCore) :
    (tx.fromAddr ≠ tx.toAddr →
      DeployPayload.Execute p nvm s tx =
        (0, "", some Err.contractTransactionAddressNotEqual, s)) ∧
    (tx.fromAddr = tx.toAddr →
      (payloadGasLimit tx (DeployPayload.BaseGasCount p) =
          Except.error Err.outOfGasLimit ∨
       payloadGasLimit tx (DeployPayload.BaseGasCount p) = Except.ok 0) →
      DeployPayload.Execute p nvm s tx =
        (0, "", some Err.outOfGasLimit, s)) ∧
    (∀ pgl, tx.fromAddr = tx.toAddr →
      payloadGasLimit tx (DeployPayload.BaseGasCount p) = Except.ok pgl →
      0 < pgl →
      ((DeployPayload.Execute p nvm s tx).2.2.2) =
        createContractAccount s (generateContractAddress tx) tx.hash) := by
  refine ⟨?_, ?_, ?_⟩
  · intro h
    simp [DeployPayload.Execute, h]
  · intro heq hfail
    rcases hfail with hfail | hfail
    · simp [DeployPayload.Execute, heq, hfail]
    · simp [DeployPayload.Execute, heq, hfail]
  · intro pgl heq hok hpos
    have hne : ¬pgl = 0 := Nat.pos_iff_ne_zero.mp hpos
    simp only [DeployPayload.Execute, heq, ne_eq, not_true_eq_false,
      if_false, hok, hne, if_neg hne]
    cases nvm.createEngine with
    | some e => rfl
    | none =>
      cases hsl : nvm.setExecutionLimits (pgl % 2 ^ 64) with
      | some e => simp [hsl]
      | none =>
        cases hdi : nvm.deployAndInit p.source p.sourceType p.args with
        | mk result exeErr =>
          cases hei : nvm.executionInstructions with
          | error e => simp [hsl, hdi, hei]
          | ok gasCout => simp [hsl, hdi, hei]

def pC8 : DeployPayload :=
  { sourceType := "js", source := "contract-source", args := "[]" }

def nvmC8 : NVM :=
  { createEngine := none
    setExecutionLimits := fun _ => none
    deployAndInit := fun _ _ _ => ("ok", none)
    executionInstructions := Except.ok 777 }

def wsC8 : WorldState :=
  { balances := fun _ => 0
    contracts := []
    events := []
    coinbase := 9 }

def txC8a : TxCore :=
  { hash := 81, fromAddr := 1, toAddr := 2, value := 0, nonce := 4,
    timestamp := 0, dataLen := 0, chainID := 1, gasPrice := 1,
    gasLimit := 30000, alg := 1, sign := 0 }

def txC8b : TxCore := { txC8a with toAddr := 1, gasLimit := 20000 }

def txC8c : TxCore := { txC8a with toAddr := 1 }

theorem deployExecute_preconditions_witness :
    DeployPayload.Execute pC8 nvmC8 wsC8 txC8a =
      (0, "", some Err.contractTransactionAddressNotEqual, wsC8) ∧
    DeployPayload.Execute pC8 nvmC8 wsC8 txC8b =
      (0, "", some Err.outOfGasLimit, wsC8) ∧
    ((DeployPayload.Execute pC8 nvmC8 wsC8 txC8c).2.2.2) =
      createContractAccount wsC8 (generateContractAddress txC8c)
        txC8c.hash :=
  ⟨(deployExecute_preconditions pC8 nvmC8 wsC8 txC8a).1 (by decide),
   (deployExecute_preconditions pC8 nvmC8 wsC8 txC8b).2.1 (by decide)
     (Or.inr (by decide)),
   (deployExecute_preconditions pC8 nvmC8 wsC8 txC8c).2.2 10000
     (by decide) (by decide) (by decide)⟩

end Nebulas
